import Mathlib

/-!
Verification development for the session-scoped question-answering
orchestration engine of the `langchain-best-prectice` repository.

Shallow embedding notes:
* Messages are the closed role variant used by the orchestrator
  (`HumanMessage` / `AIMessage` / `SystemMessage`).
* The session store (`app/services/session_service.py`) is modelled as an
  in-memory association table plus a durable file table; `os.replace` of the
  temporary file over the target is modelled as one atomic update of the
  durable table.
* External collaborators (web search, language model) are oracle
  parameters, per the spec's external-interface boundary; each call site of
  `document_qa_service.py` has its own oracle field, and a collaborator call
  that raises is an oracle returning `.error`.  None of them is in fact
  reachable: `DocumentQAService.__init__` (lines 28-37) never assigns the
  `vector_store_manager` and `search_service` attributes that the effective
  orchestrators dereference on every path, so each call raises
  AttributeError there and only the degraded `except` paths ever run.  The
  strategy functions are embedded for the record and shown unreachable.
* Config values consumed by the core (default model / temperature, feature
  flags) are fields of a `Settings` structure; the loading mechanism is out
  of scope.  Temperatures are modelled as rationals: the code only tests
  Python truthiness (`or` substitution) on them.
-/

set_option autoImplicit false

namespace LangchainQA

/-- LangChain message of the conversation history (closed role variant). -/
inductive LCMessage where
  | human (content : String)
  | ai (content : String)
  | system (content : String)
  deriving DecidableEq, Repr

/-- The `content` attribute of a message. -/
def LCMessage.content : LCMessage → String
  | .human c => c
  | .ai c => c
  | .system c => c

/-- One serialized entry of a session file: `{'type': ..., 'content': ...}`
(see `SessionService._save_session`). -/
structure SerMsg where
  type : String
  content : String
  deriving DecidableEq, Repr

/-- Serialization of a message in `SessionService._save_session` (the
`'unknown'` branch is unreachable for the closed role variant). -/
def serializeMsg : LCMessage → SerMsg
  | .human c => ⟨"human", c⟩
  | .ai c => ⟨"ai", c⟩
  | .system c => ⟨"system", c⟩

/-- Deserialization of one entry in `SessionService._load_existing_sessions`;
entries with an unrecognized `type` are skipped. -/
def deserializeMsg (m : SerMsg) : Option LCMessage :=
  if m.type = "human" then some (.human m.content)
  else if m.type = "ai" then some (.ai m.content)
  else if m.type = "system" then some (.system m.content)
  else none

/-- The durable JSON record for one session. -/
structure SessionFile where
  langchain_messages : List SerMsg
  created_at : String
  deriving DecidableEq, Repr

/-- One resident session entry of `SessionService.sessions`
(`last_access` bookkeeping is clock-driven and claim-irrelevant). -/
structure Session where
  langchain_history : List LCMessage
  created_at : String
  deriving DecidableEq, Repr

/-- String-keyed association table (first match wins). -/
abbrev Table (α : Type) := List (String × α)

/-- Lookup in a table. -/
def lookupT {α : Type} (t : Table α) (k : String) : Option α :=
  (t.find? (fun p => p.1 == k)).map (·.2)

/-- Replacing insert into a table. -/
def insertT {α : Type} (t : Table α) (k : String) (v : α) : Table α :=
  (k, v) :: t.filter (fun p => !(p.1 == k))

/-- Removal from a table. -/
def removeT {α : Type} (t : Table α) (k : String) : Table α :=
  t.filter (fun p => !(p.1 == k))

/-- State of one `SessionService`: resident sessions plus durable files. -/
structure SessionService where
  sessions : Table Session
  files : Table SessionFile
  deriving DecidableEq, Repr

/-- `SessionService._save_session`: serialize the resident history of `id`
and atomically replace its durable file (temp write + `os.replace`). -/
def saveSessionFS (svc : SessionService) (id : String) : SessionService :=
  match lookupT svc.sessions id with
  | none => svc
  | some s =>
    { svc with
      files := insertT svc.files id
        ⟨s.langchain_history.map serializeMsg, s.created_at⟩ }

/-- `SessionService.create_chat_history`: fresh id (the generated uuid is the
`freshId` parameter), empty history, persisted immediately. -/
def createChatHistory (svc : SessionService) (freshId now : String) :
    String × SessionService :=
  let svc1 := { svc with sessions := insertT svc.sessions freshId ⟨[], now⟩ }
  (freshId, saveSessionFS svc1 freshId)

/-- Messages recovered from a durable record on load. -/
def loadFileMessages (f : SessionFile) : List LCMessage :=
  f.langchain_messages.filterMap deserializeMsg

/-- `SessionService.get_chat_history`: resident lookup, else reload from the
durable record (which re-registers the session in memory), else `None`. -/
def getChatHistory (svc : SessionService) (id : String) :
    Option (List LCMessage) × SessionService :=
  match lookupT svc.sessions id with
  | some s => (some s.langchain_history, svc)
  | none =>
    match lookupT svc.files id with
    | some f =>
      (some (loadFileMessages f),
       { svc with
         sessions := insertT svc.sessions id ⟨loadFileMessages f, f.created_at⟩ })
    | none => (none, svc)

/-- `SessionService.save_chat_history`: create the session if absent, replace
its whole message sequence, persist via `_save_session`. -/
def saveChatHistory (svc : SessionService) (id : String)
    (msgs : List LCMessage) (now : String) : SessionService :=
  let svc1 :=
    match lookupT svc.sessions id with
    | some _ => svc
    | none => { svc with sessions := insertT svc.sessions id ⟨[], now⟩ }
  let s := (lookupT svc1.sessions id).getD ⟨[], now⟩
  let svc2 :=
    { svc1 with
      sessions := insertT svc1.sessions id { s with langchain_history := msgs } }
  saveSessionFS svc2 id

/-- `SessionService.delete_session`; `unlinkFails` models an I/O exception
while removing the durable file. -/
def deleteSession (svc : SessionService) (id : String) (unlinkFails : Bool) :
    Bool × SessionService :=
  if (lookupT svc.sessions id).isNone then (false, svc)
  else
    let svc1 := { svc with sessions := removeT svc.sessions id }
    match lookupT svc1.files id with
    | some _ =>
      if unlinkFails then (false, svc1)
      else (true, { svc1 with files := removeT svc1.files id })
    | none => (true, svc1)

/-- A fresh `SessionService` rebuilt from durable records only, as
`_load_existing_sessions` does on a cold start. -/
def reloadFromFiles (files : Table SessionFile) : SessionService :=
  { sessions := files.map (fun p => (p.1, ⟨loadFileMessages p.2, p.2.created_at⟩)),
    files := files }

/-! ### Configuration and request model -/

/-- Config values consumed by the core (`app/core/config.py` plus the
`DEFAULT_MODEL` / `DEFAULT_TEMPERATURE` / `ENABLE_OPENAI_WEB_SEARCH` values
referenced by the services; the loading mechanism is out of scope). -/
structure Settings where
  DEFAULT_MODEL : String
  DEFAULT_TEMPERATURE : Rat
  ENABLE_WEB_SEARCH : Bool
  ENABLE_OPENAI_WEB_SEARCH : Bool
  deriving DecidableEq, Repr

/-- `QuestionRequest` (`app/schemas/document_qa.py`; a JSON `null`
`use_web_search` behaves exactly like `False` in every use site, so the flag
is a plain `Bool`). -/
structure QuestionRequest where
  question : String
  history_id : Option String := none
  model : Option String := none
  temperature : Option Rat := none
  use_web_search : Bool := false
  deriving DecidableEq, Repr

/-- Python `x or default` for an optional string (`None` and `""` are
falsy). -/
def pyOrStr (v : Option String) (d : String) : String :=
  match v with
  | none => d
  | some s => if s = "" then d else s

/-- Python `x or default` for an optional float (`None` and `0.0` are
falsy). -/
def pyOrTemp (v : Option Rat) (d : Rat) : Rat :=
  match v with
  | none => d
  | some t => if t = 0 then d else t

/-- Python truthiness of an optional string. -/
def optStrTruthy (v : Option String) : Bool :=
  match v with
  | none => false
  | some s => s != ""

/-- `model = request.model or settings.DEFAULT_MODEL`
(`process_question`, line 389). -/
def resolvedModel (st : Settings) (req : QuestionRequest) : String :=
  pyOrStr req.model st.DEFAULT_MODEL

/-- `temperature = request.temperature or settings.DEFAULT_TEMPERATURE`
(`process_question`, line 390). -/
def resolvedTemperature (st : Settings) (req : QuestionRequest) : Rat :=
  pyOrTemp req.temperature st.DEFAULT_TEMPERATURE

/-- `use_web_search = True if model == "gpt-4o" else request.use_web_search`
(`process_question`, line 393). -/
def effectiveUseWebSearch (model : String) (flag : Bool) : Bool :=
  if model = "gpt-4o" then true else flag

/-! ### Retrieval results and collaborator oracles -/

/-- A retrieved document: `page_content` plus the `source` / `title`
metadata keys (absent keys are `none`). -/
structure Doc where
  page_content : String
  source : Option String := none
  title : Option String := none
  deriving DecidableEq, Repr

/-- One web-source record of an answer. -/
structure WebSource where
  url : String
  title : String
  content_preview : String
  deriving DecidableEq, Repr

/-- `content[:200] + "..." if len(content) > 200 else content`. -/
def contentPreview (c : String) : String :=
  if c.length > 200 then c.take 200 ++ "..." else c

/-- Web-source record built from one retrieved document
(`_process_with_web_search`, lines 660-668). -/
def docToWebSource (d : Doc) : WebSource :=
  ⟨d.source.getD "", d.title.getD "未知标题", contentPreview d.page_content⟩

/-- First-seen-order deduplicated source list
(`_process_with_rag` / `_process_with_hybrid_retrieval`). -/
def dedupSources (docs : List Doc) : List String :=
  docs.foldl
    (fun acc d =>
      let s := d.source.getD "未知来源"
      if s ∈ acc then acc else acc ++ [s])
    []

/-- External collaborators of the blocking orchestrator, one oracle per call
site of `document_qa_service.py`; `.error` models a raised exception.
Completion oracles take the (model, temperature) pair passed to the
completion capability. -/
structure Oracles where
  /-- `llm.invoke(messages)` in `_process_with_llm` (line 878). -/
  llmAnswer : String → Rat → Except String String
  /-- the GPT-4o built-in web-search completion (lines 574-629). -/
  openaiWS : String → Rat → Except String (String × List WebSource)
  /-- `web_search_manager.web_search(...)` in `_process_with_web_search`
  (line 643). -/
  webDocs : Except String (List Doc)
  /-- `chain.invoke(context)` in `_process_with_web_search` (line 717). -/
  webAnswer : String → Rat → Except String String
  /-- `similarity_search(question, k=4)` in `_process_with_rag` (line 490). -/
  ragDocs : Except String (List Doc)
  /-- `chain.invoke(context)` in `_process_with_rag` (line 548). -/
  ragAnswer : String → Rat → Except String String
  /-- `similarity_search(question, k=3)` in `_process_with_hybrid_retrieval`
  (line 743). -/
  hybridLocalDocs : Except String (List Doc)
  /-- `web_search_manager.web_search(...)` in `_process_with_hybrid_retrieval`
  (line 763). -/
  hybridWebDocs : Except String (List Doc)
  /-- `chain.invoke(context)` in `_process_with_hybrid_retrieval`
  (line 833). -/
  hybridAnswer : String → Rat → Except String String

/-! ### Retrieval strategies (`document_qa_service.py`, effective
definitions) -/

/-- `DocumentQAService._process_with_llm` (lines 837-880): one completion
call, no retrieved context; exceptions propagate. -/
def processWithLLM (o : Oracles) (model : String) (temp : Rat) :
    Except String String :=
  o.llmAnswer model temp

/-- `DocumentQAService._process_with_rag` (lines 470-550): similarity search
`k=4`, deduplicated sources, single completion call. -/
def processWithRag (o : Oracles) (model : String) (temp : Rat) :
    Except String (String × List String) :=
  match o.ragDocs with
  | .error e => .error e
  | .ok ds => (o.ragAnswer model temp).map (fun a => (a, dedupSources ds))

/-- `DocumentQAService._process_with_web_search` (lines 552-719): GPT-4o
built-in web search when `model == "gpt-4o"` and
`ENABLE_OPENAI_WEB_SEARCH` (its failure falls through to Tavily); Tavily
search otherwise; zero Tavily results silently fall back to
`_process_with_llm` with empty web sources. -/
def processWithWebSearch (st : Settings) (o : Oracles) (model : String)
    (temp : Rat) : Except String (String × List WebSource) :=
  let tavily : Except String (String × List WebSource) :=
    match o.webDocs with
    | .error e => .error e
    | .ok docs =>
      if docs = [] then (processWithLLM o model temp).map (fun a => (a, []))
      else (o.webAnswer model temp).map
        (fun a => (a, docs.map docToWebSource))
  if model = "gpt-4o" ∧ st.ENABLE_OPENAI_WEB_SEARCH then
    match o.openaiWS model temp with
    | .ok r => .ok r
    | .error _ => tavily
  else tavily

/-- `DocumentQAService._process_with_hybrid_retrieval` (lines 721-835):
local similarity search (`k=3`) then web search, deduplicated local sources,
per-result web sources, single completion call. -/
def processWithHybrid (o : Oracles) (model : String) (temp : Rat) :
    Except String (String × List String × List WebSource) :=
  match o.hybridLocalDocs with
  | .error e => .error e
  | .ok lds =>
    match o.hybridWebDocs with
    | .error e => .error e
    | .ok wds =>
      (o.hybridAnswer model temp).map
        (fun a => (a, dedupSources lds, wds.map docToWebSource))

/-! ### The blocking orchestrator -/

/-- The `str(e)` rendering of the AttributeError raised by reading
`self.vector_store_manager`: `DocumentQAService.__init__` (lines 28-37)
assigns only `document_processor`, `session_service` and
`web_search_manager`, and no other code assigns the attribute, so every
read of it raises.  (The exact CPython quoting of the message text is
immaterial: no claim compares it against another string.) -/
def vectorStoreAttrMsg : String :=
  "DocumentQAService object has no attribute vector_store_manager"

/-- `web_requested` for one request: the caller's flag after the
unconditional GPT-4o forcing of line 393 (live code, executed before the
dispatch step). -/
def webRequested (st : Settings) (req : QuestionRequest) : Bool :=
  effectiveUseWebSearch (resolvedModel st req) req.use_web_search

/-- The mode-dispatch step of `process_question` (lines 415-434).  Both
paths of the `if/elif` chain read the missing `vector_store_manager`
attribute: when the web guard `use_web_search and
settings.ENABLE_WEB_SEARCH` is truthy, short-circuit evaluation reaches
the third conjunct of line 416; otherwise control falls through to line
426, whose condition reads the same attribute.  Either way an
AttributeError is raised before any strategy runs, so the four strategy
branches (lines 417-433, embedded as the functions above) are unreachable
from here. -/
def dispatch (webOn : Bool) :
    Except String (String × List String × Option (List WebSource)) :=
  if webOn then
    .error vectorStoreAttrMsg    -- raised inside the line-416 guard
  else
    .error vectorStoreAttrMsg    -- raised by the line-426 guard

/-- The dispatch a given request reaches.  The model/temperature
resolutions (lines 389-390, `resolvedModel` / `resolvedTemperature`) and
the web-guard computation are live code; the collaborator set `o` is the
service's collaborators, none of which is consulted because the dispatch
raises first. -/
def dispatchFor (st : Settings) (_o : Oracles) (req : QuestionRequest) :
    Except String (String × List String × Option (List WebSource)) :=
  dispatch (webRequested st req && st.ENABLE_WEB_SEARCH)

/-- Session resolution of `process_question` (lines 399-406): a falsy id, an
unknown id, or an id whose history is empty (`if not history:`) all divert
to a freshly created session.  This step is live and total: the session
service catches its own I/O failures internally. -/
def resolveSession (svc : SessionService) (hid : Option String)
    (freshId now : String) : String × List LCMessage × SessionService :=
  if optStrTruthy hid then
    let id := hid.getD ""
    let r := getChatHistory svc id
    match r.1 with
    | some h =>
      if h = [] then
        let c := createChatHistory r.2 freshId now
        (c.1, [], c.2)
      else (id, h, r.2)
    | none =>
      let c := createChatHistory r.2 freshId now
      (c.1, [], c.2)
  else
    let c := createChatHistory svc freshId now
    (c.1, [], c.2)

/-- One formatted history entry (`role`/`content` pair); any non-human
message is labelled `assistant` (line 444). -/
structure RoleContent where
  role : String
  content : String
  deriving DecidableEq, Repr

/-- Frontend formatting of one message (lines 443-447). -/
def formatMsg : LCMessage → RoleContent
  | .human c => ⟨"user", c⟩
  | m => ⟨"assistant", m.content⟩

/-- The result dictionary of `process_question`; `web_sources = none` models
an absent key (the key is added only when the list is truthy, line 457). -/
structure ResultDict where
  answer : String
  sources : List String
  history : List RoleContent
  history_id : String
  web_sources : Option (List WebSource) := none
  deriving DecidableEq, Repr

/-- The effective `DocumentQAService.process_question` (lines 376-468):
resolve model, temperature and web flag (lines 389-394), resolve the
session (lines 399-406, with its session-creation side effect), append the
user message to the local copy of the history (line 409), then dispatch —
which always raises AttributeError on the missing `vector_store_manager`
attribute, so the success path (lines 436-460, kept below as written) is
unreachable and every call returns the degraded result of the top-level
`except` (lines 461-468).  `fresh1` is the uuid a session creation during
resolution would take, `fresh2` the uuid a creation inside the `except`
block would take. -/
def processQuestion (st : Settings) (o : Oracles) (svc : SessionService)
    (req : QuestionRequest) (fresh1 fresh2 now : String) :
    ResultDict × SessionService :=
  match resolveSession svc req.history_id fresh1 now with
  | (id, history0, svc1) =>
    let history1 := history0 ++ [LCMessage.human req.question]
    match dispatchFor st o req with
    | .ok (answer, sources, ws) =>
      -- lines 436-460: unreachable, the dispatch always raises
      let history2 := history1 ++ [LCMessage.ai answer]
      let svc2 := saveChatHistory svc1 id history2 now
      let webField : Option (List WebSource) :=
        match ws with
        | some l => if l = [] then none else some l
        | none => none
      ({ answer := answer, sources := sources,
         history := history2.map formatMsg, history_id := id,
         web_sources := webField }, svc2)
    | .error e =>
      if id = "" then
        let c := createChatHistory svc1 fresh2 now
        ({ answer := "处理您的问题时出错: " ++ e, sources := [],
           history := [], history_id := c.1, web_sources := none }, c.2)
      else
        ({ answer := "处理您的问题时出错: " ++ e, sources := [],
           history := [], history_id := id, web_sources := none }, svc1)

/-! ### HTTP adapters -/

/-- Outcome of an HTTP endpoint: a raised `HTTPException` or a 200 body. -/
inductive ApiResponse where
  | httpError (status : Nat) (detail : String)
  | ok (r : ResultDict)
  deriving DecidableEq, Repr

/-- The `POST {api_prefix}/question` endpoint of `app/api.py`
(lines 76-97): reject a falsy question with 400, default the model, set the
web flag for GPT-4o when `ENABLE_OPENAI_WEB_SEARCH`, then delegate to
`process_question`. -/
def questionEndpoint (st : Settings) (o : Oracles) (svc : SessionService)
    (fresh1 fresh2 now : String) (req : QuestionRequest) :
    ApiResponse × SessionService :=
  if req.question = "" then (.httpError 400 "问题不能为空", svc)
  else
    let req1 :=
      if optStrTruthy req.model then req
      else { req with model := some st.DEFAULT_MODEL }
    let req2 :=
      if req1.model = some "gpt-4o" ∧ st.ENABLE_OPENAI_WEB_SEARCH then
        { req1 with use_web_search := true }
      else req1
    let r := processQuestion st o svc req2 fresh1 fresh2 now
    (.ok r.1, r.2)

/-- The JSON body of `QuestionResponse`: absent `sources` / `web_sources`
keys default to `[]` in the adapter. -/
structure QuestionResponse where
  answer : String
  sources : List String
  web_sources : List WebSource
  history : List RoleContent
  history_id : String
  deriving DecidableEq, Repr

/-- The `POST /document-qa/question` endpoint of
`app/api/endpoints/document_qa.py` (lines 30-45): no question validation at
all; delegates directly to `process_question`. -/
def answerQuestionEndpoint (st : Settings) (o : Oracles)
    (svc : SessionService) (fresh1 fresh2 now : String)
    (req : QuestionRequest) : QuestionResponse × SessionService :=
  let r := processQuestion st o svc req fresh1 fresh2 now
  (⟨r.1.answer, r.1.sources, r.1.web_sources.getD [], r.1.history,
    r.1.history_id⟩, r.2)

/-! ### Streaming variant -/

/-- One web-source record of the stream metadata (lines 998-1002; that code
is unreachable, the shape is kept for the metadata type). -/
structure StreamWebSource where
  url : String
  title : String
  content : String
  deriving DecidableEq, Repr

/-- The metadata dictionary of a final stream pair; `none` fields model
absent keys (the error metadata carries only the completion flag and the
error text, lines 1059-1062). -/
structure StreamMeta where
  end_of_response : Bool
  sources : Option (List String) := none
  web_sources : Option (List StreamWebSource) := none
  history_id : Option String := none
  error : Option String := none
  deriving DecidableEq, Repr

/-- `temperature = request.temperature or settings.DEFAULT_TEMPERATURE`
(`process_question_stream`, line 955).  This resolution is live code,
executed on every streaming call; its value never reaches a completion
call because line 978 raises first. -/
def streamTemperature (st : Settings) (req : QuestionRequest) : Rat :=
  pyOrTemp req.temperature st.DEFAULT_TEMPERATURE

/-- Result of one `process_question_stream` run: the produced
(text, metadata) pairs and the session store afterwards. -/
structure StreamOut where
  yields : List (String × Option StreamMeta)
  svc : SessionService
  deriving DecidableEq, Repr

/-- The effective `DocumentQAService.process_question_stream`
(lines 942-1063): resolves the temperature (line 955, `streamTemperature`)
and the session (lines 960-967, with the session-creation side effect),
appends the user message to the local history copy (line 970), then
evaluates `self.vector_store_manager.vector_store` at line 978 — the
attribute does not exist, so every streaming call raises AttributeError
and the `except` (lines 1055-1063) yields exactly one
(error text, metadata) pair.  The increment forwarding, session append,
persist and final-metadata code (lines 990-1053) is unreachable; in
particular no completion capability is ever constructed (the
`ChatOpenAI(model=request.model, ...)` call at lines 1018-1022 is dead
code), and no session write beyond the resolution step occurs. -/
def processQuestionStream (st : Settings) (svc : SessionService)
    (req : QuestionRequest) (fresh1 now : String) : StreamOut :=
  let _temperature := streamTemperature st req
  match resolveSession svc req.history_id fresh1 now with
  | (_, _, svc1) =>
    ⟨[("处理您的问题时出错: " ++ vectorStoreAttrMsg,
       some { end_of_response := true, error := some vectorStoreAttrMsg })],
     svc1⟩

/-! ### Concrete fixtures used by witnesses and counterexamples -/

/-- Empty session service. -/
def svc0 : SessionService := ⟨[], []⟩

/-- Settings with both web features disabled. -/
def stPlain : Settings :=
  { DEFAULT_MODEL := "gpt-3.5-turbo", DEFAULT_TEMPERATURE := 1,
    ENABLE_WEB_SEARCH := false, ENABLE_OPENAI_WEB_SEARCH := false }

/-- Settings with Tavily web search enabled but the GPT-4o built-in search
flag disabled. -/
def stWeb : Settings :=
  { DEFAULT_MODEL := "gpt-4o", DEFAULT_TEMPERATURE := 1,
    ENABLE_WEB_SEARCH := true, ENABLE_OPENAI_WEB_SEARCH := false }

/-- Collaborators that all succeed, with empty retrieval results. -/
def oraclesPlain : Oracles :=
  { llmAnswer := fun _ _ => .ok "A"
    openaiWS := fun _ _ => .error "off"
    webDocs := .ok []
    webAnswer := fun _ _ => .ok "W"
    ragDocs := .ok []
    ragAnswer := fun _ _ => .ok "R"
    hybridLocalDocs := .ok []
    hybridWebDocs := .ok []
    hybridAnswer := fun _ _ => .ok "H" }

/-- Collaborators whose completion calls all raise. -/
def oraclesFail : Oracles :=
  { llmAnswer := fun _ _ => .error "boom"
    openaiWS := fun _ _ => .error "boom"
    webDocs := .error "boom"
    webAnswer := fun _ _ => .error "boom"
    ragDocs := .error "boom"
    ragAnswer := fun _ _ => .error "boom"
    hybridLocalDocs := .error "boom"
    hybridWebDocs := .error "boom"
    hybridAnswer := fun _ _ => .error "boom" }

/-- A service holding one session `"s"` with an empty history (exactly what
`create_chat_history` leaves behind). -/
def svcS : SessionService := ⟨[("s", ⟨[], "t0"⟩)], [("s", ⟨[], "t0"⟩)]⟩

/-- A request against session `"s"` with a non-GPT-4o model. -/
def reqS : QuestionRequest :=
  { question := "q", history_id := some "s", model := some "m" }

/-- A service holding session `"s"` with one completed turn. -/
def svcHello : SessionService :=
  ⟨[("s", ⟨[.human "hi", .ai "yo"], "t0"⟩)],
   [("s", ⟨[⟨"human", "hi"⟩, ⟨"ai", "yo"⟩], "t0"⟩)]⟩

/-- A streaming request carrying an empty-string model id and an explicit
zero temperature. -/
def reqEmptyModel : QuestionRequest :=
  { question := "q", model := some "", temperature := some 0 }

/-- A request naming the web-capable model with the web flag off. -/
def req4o : QuestionRequest :=
  { question := "q", model := some "gpt-4o", use_web_search := false }

/-- A whitespace-only question. -/
def reqWs : QuestionRequest := { question := " " }

/-- A request with the web flag on and a non-GPT-4o model. -/
def reqWebOn : QuestionRequest :=
  { question := "q", model := some "m", use_web_search := true }

/-! ### Basic lemmas about tables and serialization -/

theorem lookupT_insertT_self {α : Type} (t : Table α) (k : String) (v : α) :
    lookupT (insertT t k v) k = some v := by
  simp [lookupT, insertT, List.find?]

theorem find?_filter_erased {α : Type} (t : Table α) (k k' : String)
    (h : k' ≠ k) :
    (t.filter (fun p => !(p.1 == k))).find? (fun p => p.1 == k')
      = t.find? (fun p => p.1 == k') := by
  induction t with
  | nil => rfl
  | cons p t ih =>
    by_cases hp : p.1 = k
    · subst hp
      have e2 : (p.1 == k') = false := by simp [Ne.symm h]
      simp [List.filter_cons, List.find?_cons, e2, ih]
    · by_cases hp' : p.1 = k'
      · have e1 : (!(p.1 == k)) = true := by simp [hp]
        have e2 : (p.1 == k') = true := by simp [hp']
        simp [List.filter_cons, List.find?_cons, e1, e2]
      · have e1 : (!(p.1 == k)) = true := by simp [hp]
        have e2 : (p.1 == k') = false := by simp [hp']
        simp [List.filter_cons, List.find?_cons, e1, e2, ih]

theorem lookupT_insertT_ne {α : Type} (t : Table α) (k k' : String) (v : α)
    (h : k' ≠ k) : lookupT (insertT t k v) k' = lookupT t k' := by
  have hb : (k == k') = false := by simp [Ne.symm h]
  simp [lookupT, insertT, List.find?_cons, hb, find?_filter_erased t k k' h]

theorem lookupT_removeT_self {α : Type} (t : Table α) (k : String) :
    lookupT (removeT t k) k = none := by
  have : (t.filter (fun p => !(p.1 == k))).find? (fun p => p.1 == k) = none := by
    rw [List.find?_eq_none]
    intro x hx
    simp only [List.mem_filter] at hx
    simpa using hx.2
  simp [lookupT, removeT, this]

theorem lookupT_mapVal {α β : Type} (t : Table α) (g : α → β) (k : String) :
    lookupT (t.map (fun p => (p.1, g p.2))) k = (lookupT t k).map g := by
  induction t with
  | nil => rfl
  | cons p t ih =>
    by_cases hp : p.1 = k
    · simp [lookupT, List.find?, hp]
    · have h1 : (p.1 == k) = false := by simp [beq_iff_eq, hp]
      simp only [lookupT, List.map, List.find?, h1] at ih ⊢
      exact ih

/-- Serialize-then-deserialize is the identity on message lists (the
round-trip behind the session-file format). -/
theorem deserialize_serialize (msgs : List LCMessage) :
    (msgs.map serializeMsg).filterMap deserializeMsg = msgs := by
  induction msgs with
  | nil => rfl
  | cons m rest ih =>
    cases m <;> simp [serializeMsg, deserializeMsg, List.filterMap, ih]

/-! ### Helper lemmas -/

theorem resolveSession_id_ne (svc : SessionService) (hid : Option String)
    (f now : String) (hf : f ≠ "") :
    (resolveSession svc hid f now).1 ≠ "" := by
  unfold resolveSession
  by_cases ht : optStrTruthy hid = true
  · simp only [ht, if_pos]
    cases hg : (getChatHistory svc (hid.getD "")).1 with
    | none => simpa [createChatHistory] using hf
    | some h =>
      by_cases hn : h = []
      · simp [hg, hn, createChatHistory, hf]
      · simp only [hg, hn, if_neg]
        cases hid with
        | none => simp [optStrTruthy] at ht
        | some s =>
          simp only [optStrTruthy] at ht
          simpa using ht
  · simp only [eq_false_of_ne_true ht]
    simpa [createChatHistory] using hf

theorem saveSessionFS_sessions (svc : SessionService) (id : String) :
    (saveSessionFS svc id).sessions = svc.sessions := by
  unfold saveSessionFS
  cases lookupT svc.sessions id <;> rfl

theorem saveChatHistory_present (svc : SessionService) (id : String)
    (msgs : List LCMessage) (now : String) (s : Session)
    (h : lookupT svc.sessions id = some s) :
    lookupT (saveChatHistory svc id msgs now).sessions id
        = some { s with langchain_history := msgs }
      ∧ lookupT (saveChatHistory svc id msgs now).files id
        = some ⟨msgs.map serializeMsg, s.created_at⟩ := by
  constructor <;>
    simp [saveChatHistory, saveSessionFS, h, lookupT_insertT_self]

theorem saveChatHistory_files (svc : SessionService) (id : String)
    (msgs : List LCMessage) (now : String) :
    ∃ c, lookupT (saveChatHistory svc id msgs now).files id
      = some ⟨msgs.map serializeMsg, c⟩ := by
  cases h : lookupT svc.sessions id with
  | some s =>
    exact ⟨s.created_at, (saveChatHistory_present svc id msgs now s h).2⟩
  | none =>
    refine ⟨now, ?_⟩
    simp [saveChatHistory, saveSessionFS, h, lookupT_insertT_self]

/-! ### C1 — mode selection -/

/-- C1: the claimed mode-selection table never executes — both guards of
the lines-415-434 chain read the missing `vector_store_manager` attribute,
so every `process_question` call (in particular one with web search
neither requested nor available) raises AttributeError during mode
selection and returns the degraded error answer with empty sources and
history: no request is ever classified into
HYBRID/WEB_ONLY/LOCAL_ONLY/PLAIN or answered via the PLAIN strategy. -/
theorem c1_mode_selection_crashes (st : Settings) (o : Oracles)
    (svc : SessionService) (req : QuestionRequest) (f1 f2 now : String) :
    (processQuestion st o svc req f1 f2 now).1.answer
        = "处理您的问题时出错: " ++ vectorStoreAttrMsg
    ∧ (processQuestion st o svc req f1 f2 now).1.sources = []
    ∧ (processQuestion st o svc req f1 f2 now).1.history = [] := by
  have hd : dispatchFor st o req = .error vectorStoreAttrMsg := by
    unfold dispatchFor dispatch
    cases webRequested st req && st.ENABLE_WEB_SEARCH <;> rfl
  unfold processQuestion
  cases hrs : resolveSession svc req.history_id f1 now with
  | mk id rest =>
    cases rest with
    | mk h0 svc1 =>
      rw [hd]
      by_cases hid : id = "" <;> simp [hid]

/-! ### C3 — empty-question validation -/

/-- C3 counterexample: a whitespace-only question is *not* rejected — the
`/question` endpoint forwards it to the orchestrator and returns a
200-shaped response (with the current code, the degraded missing-attribute
answer; no validation failure and no non-200 status is surfaced); and the
`/document-qa/question` endpoint does not reject even an exactly-empty
question. -/
theorem c3_counterexample :
    (questionEndpoint stPlain oraclesPlain svc0 "f" "g" "t1" reqWs).1
      = ApiResponse.ok ⟨"处理您的问题时出错: " ++ vectorStoreAttrMsg,
          [], [], "f", none⟩
    ∧ (answerQuestionEndpoint stPlain oraclesPlain svc0 "f" "g" "t1"
        { question := "" }).1.answer
      = "处理您的问题时出错: " ++ vectorStoreAttrMsg := by
  decide

/-- C3 (amended): only an exactly-empty question is rejected, and only by
the `app/api.py` `/question` endpoint: it returns 400 before any
collaborator or session-store call (the store is returned unchanged and the
response is independent of the oracles).  Whitespace-only questions, and
all questions at the `/document-qa/question` endpoint, are forwarded to
the orchestrator and produce 200-shaped responses. -/
theorem c3_empty_question_rejected (st : Settings) (o : Oracles)
    (svc : SessionService) (f1 f2 now : String)
    (req : QuestionRequest) (h : req.question = "") :
    questionEndpoint st o svc f1 f2 now req
      = (.httpError 400 "问题不能为空", svc) := by
  simp [questionEndpoint, h]

/-- Witness for the amended C3 at a concrete empty-question request, with
collaborators that would all raise if consulted. -/
theorem c3_witness :
    questionEndpoint stPlain oraclesFail svc0 "f" "g" "t1"
      { question := "" } = (.httpError 400 "问题不能为空", svc0) :=
  c3_empty_question_rejected stPlain oraclesFail svc0 "f" "g" "t1"
    { question := "" } rfl

/-! ### C4 — GPT-4o web-search forcing -/

/-- C4 counterexample: with the web-capable feature flag
(`ENABLE_OPENAI_WEB_SEARCH`) disabled, a request resolving to model
`"gpt-4o"` with `use_web_search = False` still has `web_requested`
computed as `True` by line 393 — contradicting "this forcing applies
exactly when the web-capable feature flag is enabled globally".
(`webRequested` is the live guard value that `process_question` feeds into
the line-416 check.) -/
theorem c4_counterexample :
    stWeb.ENABLE_OPENAI_WEB_SEARCH = false
    ∧ req4o.use_web_search = false
    ∧ resolvedModel stWeb req4o = "gpt-4o"
    ∧ webRequested stWeb req4o = true := by
  decide

/-- C4 (amended): the orchestrator forces `web_requested = True` for the
resolved model id `"gpt-4o"` unconditionally — independent of the feature
flag — while for any other model id `web_requested` equals the caller's
explicit flag. -/
theorem c4_forcing_unconditional (m : String) (flag : Bool) :
    effectiveUseWebSearch "gpt-4o" flag = true
    ∧ (m ≠ "gpt-4o" → effectiveUseWebSearch m flag = flag) := by
  refine ⟨rfl, fun h => ?_⟩
  simp [effectiveUseWebSearch, h]

/-- Witness for the amended C4 at concrete model ids. -/
theorem c4_witness :
    effectiveUseWebSearch "gpt-4o" false = true
    ∧ effectiveUseWebSearch "gpt-3.5-turbo" false = false :=
  ⟨(c4_forcing_unconditional "gpt-3.5-turbo" false).1,
   (c4_forcing_unconditional "gpt-3.5-turbo" false).2 (by decide)⟩

/-! ### C9 — delete outcomes -/

/-- C9 counterexample: deleting an absent session and failing to unlink an
existing session's durable file return the *same* value `False` — the two
failure modes are not distinguishable by the caller (and the HTTP adapter
maps both to 404). -/
theorem c9_counterexample :
    (deleteSession svc0 "s" false).1 = false
    ∧ (deleteSession svcHello "s" true).1 = false
    ∧ (deleteSession svc0 "s" false).1
        = (deleteSession svcHello "s" true).1 := by
  decide

/-- C9 (amended): `delete_session` removes the in-memory entry and the
durable file on success (returning `True`); deleting an absent session
returns `False`, and an I/O failure while removing the durable file also
returns `False` — both failure modes are reported by the same boolean and
are therefore not distinguishable by the caller. -/
theorem c9_delete_outcomes (svc : SessionService) (id : String)
    (fail : Bool) :
    (lookupT svc.sessions id = none → deleteSession svc id fail = (false, svc))
    ∧ (∀ s, lookupT svc.sessions id = some s → fail = true →
        (lookupT svc.files id).isSome = true →
        (deleteSession svc id fail).1 = false)
    ∧ (∀ s, lookupT svc.sessions id = some s → fail = false →
        (deleteSession svc id fail).1 = true
          ∧ lookupT (deleteSession svc id fail).2.sessions id = none
          ∧ lookupT (deleteSession svc id fail).2.files id = none) := by
  refine ⟨fun h => by simp [deleteSession, h], fun s hs hf hfile => ?_,
    fun s hs hf => ?_⟩
  · subst hf
    obtain ⟨f, hfl⟩ := Option.isSome_iff_exists.mp hfile
    simp [deleteSession, hs, hfl]
  · subst hf
    cases hfl : lookupT svc.files id with
    | some f =>
      refine ⟨by simp [deleteSession, hs, hfl], ?_, ?_⟩
      · simp [deleteSession, hs, hfl, lookupT_removeT_self]
      · simp [deleteSession, hs, hfl, lookupT_removeT_self]
    | none =>
      refine ⟨by simp [deleteSession, hs, hfl], ?_, ?_⟩
      · simp [deleteSession, hs, hfl, lookupT_removeT_self]
      · simp [deleteSession, hs, hfl]

/-- Witness for the amended C9 at concrete stores. -/
theorem c9_witness :
    deleteSession svc0 "s" false = (false, svc0)
    ∧ (deleteSession svcHello "s" true).1 = false
    ∧ (deleteSession svcHello "s" false).1 = true :=
  ⟨(c9_delete_outcomes svc0 "s" false).1 (by decide),
   (c9_delete_outcomes svcHello "s" true).2.1
     ⟨[.human "hi", .ai "yo"], "t0"⟩ (by decide) rfl (by decide),
   ((c9_delete_outcomes svcHello "s" false).2.2
     ⟨[.human "hi", .ai "yo"], "t0"⟩ (by decide) rfl).1⟩

/-! ### C10 — falsy default substitution -/

/-- C10: the substitution lines themselves are live — the blocking
resolution (lines 389-390) replaces a present-but-0.0 temperature and an
empty-string model id by the configured defaults, and the streaming
resolution (line 955) replaces a 0.0 temperature — but the effective
streaming orchestrator contains no model resolution at all (its written
completion construction at line 1019 would pass `request.model` unchanged
and is unreachable), and at the failing input the stream raises on the
missing `vector_store_manager` attribute at line 978 and yields a single
degraded error pair: no value, substituted or not, is ever passed to a
completion capability. -/
theorem c10_substitution_never_reaches_completion :
    resolvedTemperature stWeb reqEmptyModel = stWeb.DEFAULT_TEMPERATURE
    ∧ resolvedModel stWeb reqEmptyModel = stWeb.DEFAULT_MODEL
    ∧ streamTemperature stWeb reqEmptyModel = stWeb.DEFAULT_TEMPERATURE
    ∧ (processQuestionStream stWeb svc0 reqEmptyModel "f" "t1").yields
      = [("处理您的问题时出错: " ++ vectorStoreAttrMsg,
          some { end_of_response := true, sources := none,
                 web_sources := none, history_id := none,
                 error := some vectorStoreAttrMsg })] := by
  decide

/-! ### C5 — degraded result on failure -/

/-- C5: any exception raised after validation (modelled by a failing
dispatch — session resolution and persistence are total here, and in the
code as written the dispatch fails on every call) is converted into a
degraded AnswerResult, not a raised exception: the answer carries a
human-readable error message, sources are empty, web_sources is absent,
and the session id is non-empty (the resolved id, a freshly created one
being used only if resolution produced a falsy id). -/
theorem c5_degraded_result (st : Settings) (o : Oracles)
    (svc : SessionService) (req : QuestionRequest)
    (f1 f2 now : String) (e : String) (hf1 : f1 ≠ "")
    (hd : dispatchFor st o req = .error e) :
    (processQuestion st o svc req f1 f2 now).1.answer
        = "处理您的问题时出错: " ++ e
    ∧ (processQuestion st o svc req f1 f2 now).1.sources = []
    ∧ (processQuestion st o svc req f1 f2 now).1.web_sources = none
    ∧ (processQuestion st o svc req f1 f2 now).1.history_id ≠ "" := by
  have hid := resolveSession_id_ne svc req.history_id f1 now hf1
  unfold processQuestion
  cases hrs : resolveSession svc req.history_id f1 now with
  | mk id rest =>
    cases rest with
    | mk h0 svc1 =>
      rw [hrs] at hid
      simp only at hid
      rw [hd]
      simp [hid]

/-- Witness for C5: a concrete request (the dispatch failure is the
AttributeError every call raises). -/
theorem c5_witness :
    (processQuestion stPlain oraclesFail svc0 { question := "q" } "f"
      "g" "t1").1.answer = "处理您的问题时出错: " ++ vectorStoreAttrMsg
    ∧ (processQuestion stPlain oraclesFail svc0 { question := "q" }
        "f" "g" "t1").1.sources = []
    ∧ (processQuestion stPlain oraclesFail svc0 { question := "q" }
        "f" "g" "t1").1.web_sources = none
    ∧ (processQuestion stPlain oraclesFail svc0 { question := "q" }
        "f" "g" "t1").1.history_id ≠ "" :=
  c5_degraded_result stPlain oraclesFail svc0 { question := "q" } "f"
    "g" "t1" vectorStoreAttrMsg (by decide) rfl

/-! ### C6 — save/reload round-trip -/

/-- C6: a session save is a full-snapshot durable write (the temp-file plus
`os.replace` pair is one atomic durable-table update in this model), and
save followed by a cold reload of the durable records yields exactly the
saved message sequence, for every session id and every message sequence of
any length N ≥ 0. -/
theorem c6_save_reload_roundtrip (svc : SessionService) (id : String)
    (msgs : List LCMessage) (now : String) :
    (getChatHistory (reloadFromFiles
        (saveChatHistory svc id msgs now).files) id).1 = some msgs := by
  obtain ⟨c, hc⟩ := saveChatHistory_files svc id msgs now
  have hmv := lookupT_mapVal (saveChatHistory svc id msgs now).files
    (fun f => (⟨loadFileMessages f, f.created_at⟩ : Session)) id
  unfold getChatHistory reloadFromFiles
  rw [hmv, hc]
  simpa [loadFileMessages] using deserialize_serialize msgs

/-! ### C8 — WEB_ONLY empty fallback -/

/-- C8: the zero-result fallback is written but unreachable.  The
`_process_with_web_search` function (embedded as `processWithWebSearch`)
does fall back to the plain-LLM answer with empty web sources when the web
search returns nothing (first conjunct, lines 652-654), but a truthy web
guard makes `process_question` evaluate the missing
`vector_store_manager` attribute at line 416, which raises — so the
orchestrator returns the degraded AttributeError answer and the fallback
never executes inside `process_question` (remaining conjuncts): the
claimed WEB_ONLY success state does not exist in the program. -/
theorem c8_fallback_unreachable :
    processWithWebSearch stWeb oraclesPlain "m" 1 = .ok ("A", [])
    ∧ (processQuestion stWeb oraclesPlain svc0 reqWebOn "f" "g"
        "t1").1.answer = "处理您的问题时出错: " ++ vectorStoreAttrMsg
    ∧ (processQuestion stWeb oraclesPlain svc0 reqWebOn "f" "g"
        "t1").1.web_sources = none :=
  ⟨rfl, by decide, by decide⟩

/-! ### C2 — session append invariant -/

/-- C2: no `process()` call ever appends the claimed user/assistant pair.
One call against the existing session id `"s"` (stored history empty,
exactly as `create()` leaves it) is first diverted to a fresh id by
`if not history:` and then crashes on the missing attribute before the
assistant append and save, so `"s"` still stores 0 messages (not 2), the
freshly created session `"f"` also stores 0 messages, and the returned
answer is the degraded AttributeError message — after N calls the stored
count is 0, never 2N. -/
theorem c2_no_turn_persisted :
    lookupT (processQuestion stPlain oraclesPlain svcS reqS "f" "g"
      "t1").2.sessions "s" = some ⟨[], "t0"⟩
    ∧ lookupT (processQuestion stPlain oraclesPlain svcS reqS "f" "g"
        "t1").2.sessions "f" = some ⟨[], "t1"⟩
    ∧ (processQuestion stPlain oraclesPlain svcS reqS "f" "g"
        "t1").1.history_id = "f"
    ∧ (processQuestion stPlain oraclesPlain svcS reqS "f" "g"
        "t1").1.answer = "处理您的问题时出错: " ++ vectorStoreAttrMsg := by
  decide

/-! ### C7 — streaming end-of-stream contract -/

/-- C7: the claimed streaming contract never executes.  Every streaming
call raises AttributeError at line 978 (missing `vector_store_manager`)
before any increment is requested, yields exactly one
(error text, metadata-with-error) pair — never the per-increment
`(text, None)` pairs or the final `("", done-metadata)` pair — and
performs no session write beyond the resolution step: no assistant
message is appended or persisted. -/
theorem c7_stream_always_errors (st : Settings) (svc : SessionService)
    (req : QuestionRequest) (f1 now : String) :
    (processQuestionStream st svc req f1 now).yields
      = [("处理您的问题时出错: " ++ vectorStoreAttrMsg,
          some { end_of_response := true, sources := none,
                 web_sources := none, history_id := none,
                 error := some vectorStoreAttrMsg })]
    ∧ (processQuestionStream st svc req f1 now).svc
      = (resolveSession svc req.history_id f1 now).2.2 := by
  unfold processQuestionStream
  cases hrs : resolveSession svc req.history_id f1 now with
  | mk id rest =>
    cases rest with
    | mk h0 svc1 =>
      exact ⟨rfl, rfl⟩

end LangchainQA
